import Mathlib

/-!
Verification development for the prompt-pipeline service layer of the
repository (backend/promptengine/services.py and backend/analytics/views.py).

The Python functions are shallowly embedded as executable Lean definitions:
strings are Lean strings (lists of characters), machine integers are Nat,
Python floats are modelled as exact rationals, and code that can raise an
uncaught exception is embedded as an Except value.  Regular-expression
substitutions are embedded as explicit left-to-right scanners that mirror
the concrete patterns used by the source (the patterns involved contain no
backtracking ambiguity, see the comments on each matcher).  The whitespace
and word-character classes are the ASCII portions of the Python classes;
all concrete inputs used below are ASCII.
-/

/-- ASCII part of the Python regex class backslash-s, which is also the set
    used by str.strip with no argument. -/
def pyIsSpace (c : Char) : Bool :=
  c = ' ' || c = '\t' || c = '\n' || c = '\x0d' || c = '\x0b' || c = '\x0c'

/-- ASCII part of the Python regex word class, used for word boundaries. -/
def isWordChar (c : Char) : Bool :=
  c.isAlphanum || c = '_'

/-- One step of re.sub semantics: a matcher returns, when the pattern matches
    at the head of the input, the replacement text together with the input
    remaining after the matched segment. -/
def Matcher : Type := List Char → Option (List Char × List Char)

/-- re.sub applied with matcher m: scan left to right, emit the replacement
    and resume after each match, copy the current character otherwise.  The
    fuel argument only serves termination; fuel = length of the input is
    enough for a complete scan because every matcher used below consumes at
    least one character. -/
def pySub (m : Matcher) : Nat → List Char → List Char
  | 0, s => s
  | _ + 1, [] => []
  | f + 1, c :: cs =>
    match m (c :: cs) with
    | some (r, rest) => r ++ pySub m f rest
    | none => c :: pySub m f cs

/-- re.sub over the whole string. -/
def pySubAll (m : Matcher) (s : List Char) : List Char :=
  pySub m s.length s

/-- Matcher for the fence pattern (three backticks, an optional literal json,
    then greedy whitespace; the trailing optional newline of the source
    pattern is always empty because the greedy whitespace class already
    contains the newline).  Replacement is empty. -/
def fenceM : Matcher := fun s =>
  match s with
  | '\x60' :: '\x60' :: '\x60' :: rest =>
    let rest1 := match rest with
      | 'j' :: 's' :: 'o' :: 'n' :: r => r
      | _ => rest
    some ([], rest1.dropWhile pyIsSpace)
  | _ => none

/-- Case-insensitive literal match of kw (given in lowercase); returns the
    remaining input on success. -/
def matchCI (kw : List Char) (s : List Char) : Option (List Char) :=
  match kw, s with
  | [], rest => some rest
  | _ :: _, [] => none
  | k :: ks, c :: cs => if c.toLower = k then matchCI ks cs else none

/-- Matcher for the keyword patterns: a colon, greedy whitespace, the keyword
    case-insensitively, then a word boundary.  Greedy whitespace is exact
    here because no whitespace character can start the keyword.  Replacement
    is a colon, one space and the lowercase keyword. -/
def kwM (kw : List Char) : Matcher := fun s =>
  match s with
  | ':' :: rest =>
    match matchCI kw (rest.dropWhile pyIsSpace) with
    | some rest2 =>
      match rest2 with
      | c :: _ => if isWordChar c then none else some (':' :: ' ' :: kw, rest2)
      | [] => some (':' :: ' ' :: kw, rest2)
    | none => none
  | _ => none

/-- Matcher for the trailing-comma pattern: a comma, greedy whitespace, then
    a closing brace or bracket, replaced by that brace alone.  Greedy
    whitespace is exact because no whitespace character is a closing
    brace. -/
def commaM : Matcher := fun s =>
  match s with
  | ',' :: rest =>
    match rest.dropWhile pyIsSpace with
    | c :: cs => if c = '\x7d' || c = ']' then some ([c], cs) else none
    | [] => none
  | _ => none

/-- str.strip with no argument (ASCII whitespace). -/
def pyStrip (s : List Char) : List Char :=
  ((s.dropWhile pyIsSpace).reverse.dropWhile pyIsSpace).reverse

/-- str.rstrip with a backtick argument. -/
def pyRStripTick (s : List Char) : List Char :=
  (s.reverse.dropWhile (· = '\x60')).reverse

def nullKW : List Char := ['n', 'u', 'l', 'l']
def trueKW : List Char := ['t', 'r', 'u', 'e']
def falseKW : List Char := ['f', 'a', 'l', 's', 'e']

/-- services.py _sanitize_json on a list of characters: strip code fences,
    strip, remove trailing backticks, strip, normalise the NULL, TRUE and
    FALSE tokens appearing after a colon, then remove trailing commas before
    a closing brace or bracket. -/
def sanitizeL (s : List Char) : List Char :=
  let c1 := pyStrip (pySubAll fenceM s)
  let c2 := pyStrip (pyRStripTick c1)
  let c3 := pySubAll (kwM nullKW) c2
  let c4 := pySubAll (kwM trueKW) c3
  let c5 := pySubAll (kwM falseKW) c4
  pySubAll commaM c5

/-- services.py _sanitize_json. -/
def _sanitize_json (s : String) : String :=
  ⟨sanitizeL s.data⟩

/-!  ## JSON values and the json.loads embedding

Python json values are embedded with numbers as exact rationals (the source
converts number literals to machine ints and floats; only zero-ness of
numbers is ever consumed by the code under verification, through Python
truthiness).  json.loads also accepts the NaN and Infinity constants, which
get their own constructors.  Object entries are kept in parse order; the
lookup used below takes the last entry with a given key, matching the
overwrite semantics of a Python dict literal built by the stdlib decoder. -/

inductive Json where
  | null
  | bool (b : Bool)
  | num (q : ℚ)
  | nan
  | inf (neg : Bool)
  | str (s : String)
  | arr (elems : List Json)
  | obj (entries : List (String × Json))

/-- JSON whitespace as in the stdlib decoder: space, tab, newline, return. -/
def jsonWS (c : Char) : Bool :=
  c = ' ' || c = '\t' || c = '\n' || c = '\x0d'

def skipJWS (s : List Char) : List Char := s.dropWhile jsonWS

def hexVal (c : Char) : Option Nat :=
  if '0' ≤ c ∧ c ≤ '9' then some (c.toNat - 48)
  else if 'a' ≤ c ∧ c ≤ 'f' then some (c.toNat - 87)
  else if 'A' ≤ c ∧ c ≤ 'F' then some (c.toNat - 55)
  else none

/-- Body of a JSON string literal, after the opening quote: ordinary
    characters must not be control characters (strict mode), escapes are the
    eight single-character ones plus 4-hex-digit unicode escapes (surrogate
    pair recombination is not modelled; no input below uses escapes). -/
def parseJStr : Nat → List Char → List Char → Except String (String × List Char)
  | 0, _, _ => .error "Unterminated string"
  | _ + 1, _, [] => .error "Unterminated string"
  | f + 1, acc, c :: rest =>
    if c = '"' then .ok (⟨acc.reverse⟩, rest)
    else if c = '\\' then
      match rest with
      | 'n' :: r => parseJStr f ('\n' :: acc) r
      | 't' :: r => parseJStr f ('\t' :: acc) r
      | 'r' :: r => parseJStr f ('\x0d' :: acc) r
      | 'b' :: r => parseJStr f ('\x08' :: acc) r
      | 'f' :: r => parseJStr f ('\x0c' :: acc) r
      | '/' :: r => parseJStr f ('/' :: acc) r
      | '"' :: r => parseJStr f ('"' :: acc) r
      | '\\' :: r => parseJStr f ('\\' :: acc) r
      | 'u' :: h1 :: h2 :: h3 :: h4 :: r =>
        match hexVal h1, hexVal h2, hexVal h3, hexVal h4 with
        | some a, some b, some c2, some d =>
          parseJStr f (Char.ofNat (((a * 16 + b) * 16 + c2) * 16 + d) :: acc) r
        | _, _, _, _ => .error "Invalid unicode escape"
      | _ => .error "Invalid escape"
    else if c.toNat < 32 then .error "Invalid control character"
    else parseJStr f (c :: acc) rest

def digitsToNat (ds : List Char) : Nat :=
  ds.foldl (fun n c => n * 10 + (c.toNat - 48)) 0

/-- JSON number grammar: optional minus, an integer part that is a single
    zero or a nonzero-led digit run, an optional fraction requiring at least
    one digit, an optional exponent requiring at least one digit.  A part
    that fails to complete is simply not consumed, exactly as with the
    stdlib number regular expression. -/
def parseNum (s : List Char) : Except String (ℚ × List Char) :=
  let sgn : Bool × List Char := match s with
    | '-' :: r => (true, r)
    | _ => (false, s)
  match sgn with
  | (neg, s1) =>
    let ipart : List Char × List Char := match s1 with
      | '0' :: r => (['0'], r)
      | _ => (s1.takeWhile (·.isDigit), s1.dropWhile (·.isDigit))
    match ipart with
    | ([], _) => .error "Expecting value"
    | (ids, s2) =>
      let fpart : List Char × List Char := match s2 with
        | '.' :: r =>
          if (r.takeWhile (·.isDigit)) = [] then ([], s2)
          else (r.takeWhile (·.isDigit), r.dropWhile (·.isDigit))
        | _ => ([], s2)
      match fpart with
      | (fds, s3) =>
        let epart : Option Int × List Char := match s3 with
          | 'e' :: '+' :: r =>
            if (r.takeWhile (·.isDigit)) = [] then (none, s3)
            else (some (digitsToNat (r.takeWhile (·.isDigit)) : Int), r.dropWhile (·.isDigit))
          | 'e' :: '-' :: r =>
            if (r.takeWhile (·.isDigit)) = [] then (none, s3)
            else (some (-(digitsToNat (r.takeWhile (·.isDigit)) : Int)), r.dropWhile (·.isDigit))
          | 'e' :: r =>
            if (r.takeWhile (·.isDigit)) = [] then (none, s3)
            else (some (digitsToNat (r.takeWhile (·.isDigit)) : Int), r.dropWhile (·.isDigit))
          | 'E' :: '+' :: r =>
            if (r.takeWhile (·.isDigit)) = [] then (none, s3)
            else (some (digitsToNat (r.takeWhile (·.isDigit)) : Int), r.dropWhile (·.isDigit))
          | 'E' :: '-' :: r =>
            if (r.takeWhile (·.isDigit)) = [] then (none, s3)
            else (some (-(digitsToNat (r.takeWhile (·.isDigit)) : Int)), r.dropWhile (·.isDigit))
          | 'E' :: r =>
            if (r.takeWhile (·.isDigit)) = [] then (none, s3)
            else (some (digitsToNat (r.takeWhile (·.isDigit)) : Int), r.dropWhile (·.isDigit))
          | _ => (none, s3)
        match epart with
        | (e, s4) =>
          let mant : ℚ := (digitsToNat (ids ++ fds) : ℚ) / ((10 : ℚ) ^ fds.length)
          let scaled : ℚ := match e with
            | some ex => mant * (10 : ℚ) ^ ex
            | none => mant
          .ok ((if neg then -scaled else scaled), s4)

mutual

/-- One JSON value, stdlib decoder style; input is positioned at the first
    character of the value. -/
def parseVal : Nat → List Char → Except String (Json × List Char)
  | 0, _ => .error "fuel exhausted"
  | f + 1, s =>
    match s with
    | [] => .error "Expecting value"
    | '\x7b' :: rest =>
      match skipJWS rest with
      | '\x7d' :: r => .ok (.obj [], r)
      | r => (parseObjItems f r).map (fun p => (.obj p.1, p.2))
    | '[' :: rest =>
      match skipJWS rest with
      | ']' :: r => .ok (.arr [], r)
      | r => (parseArrItems f r).map (fun p => (.arr p.1, p.2))
    | '"' :: rest => (parseJStr f [] rest).map (fun p => (.str p.1, p.2))
    | 't' :: 'r' :: 'u' :: 'e' :: r => .ok (.bool true, r)
    | 'f' :: 'a' :: 'l' :: 's' :: 'e' :: r => .ok (.bool false, r)
    | 'n' :: 'u' :: 'l' :: 'l' :: r => .ok (.null, r)
    | 'N' :: 'a' :: 'N' :: r => .ok (.nan, r)
    | 'I' :: 'n' :: 'f' :: 'i' :: 'n' :: 'i' :: 't' :: 'y' :: r => .ok (.inf false, r)
    | '-' :: 'I' :: 'n' :: 'f' :: 'i' :: 'n' :: 'i' :: 't' :: 'y' :: r => .ok (.inf true, r)
    | _ => (parseNum s).map (fun p => (Json.num p.1, p.2))

/-- Members of an object, positioned at the first key (the empty object was
    already handled by the caller). -/
def parseObjItems : Nat → List Char → Except String (List (String × Json) × List Char)
  | 0, _ => .error "fuel exhausted"
  | f + 1, s =>
    match s with
    | '"' :: rest =>
      match parseJStr f [] rest with
      | .error e => .error e
      | .ok (key, r1) =>
        match skipJWS r1 with
        | ':' :: r2 =>
          match parseVal f (skipJWS r2) with
          | .error e => .error e
          | .ok (v, r3) =>
            match skipJWS r3 with
            | ',' :: r4 =>
              (parseObjItems f (skipJWS r4)).map (fun p => ((key, v) :: p.1, p.2))
            | '\x7d' :: r4 => .ok ([(key, v)], r4)
            | _ => .error "Expecting delimiter"
        | _ => .error "Expecting colon delimiter"
    | _ => .error "Expecting property name enclosed in double quotes"

/-- Elements of an array, positioned at the first element (the empty array
    was already handled by the caller). -/
def parseArrItems : Nat → List Char → Except String (List Json × List Char)
  | 0, _ => .error "fuel exhausted"
  | f + 1, s =>
    match parseVal f s with
    | .error e => .error e
    | .ok (v, r1) =>
      match skipJWS r1 with
      | ',' :: r2 => (parseArrItems f (skipJWS r2)).map (fun p => (v :: p.1, p.2))
      | ']' :: r2 => .ok ([v], r2)
      | _ => .error "Expecting delimiter"

end

/-- json.loads on a list of characters: a single value surrounded by
    optional whitespace; anything left over is an error.  The fuel passed in
    is ample: every parser level either consumes a character before its
    recursive call or is a parseArrItems to parseVal handoff, so the
    recursion depth never exceeds twice the input length. -/
def json_loadsL (l : List Char) : Except String Json :=
  match parseVal (2 * l.length + 4) (skipJWS l) with
  | .error e => .error e
  | .ok (v, rest) => if skipJWS rest = [] then .ok v else .error "Extra data"

/-- json.loads. -/
def json_loads (s : String) : Except String Json :=
  json_loadsL s.data

/-- Python truthiness of a decoded json value: None and False are falsy,
    zero numbers are falsy, empty strings, arrays and objects are falsy,
    everything else including NaN is truthy. -/
def pyTruthy : Json → Bool
  | .null => false
  | .bool b => b
  | .num q => decide (q ≠ 0)
  | .nan => true
  | .inf _ => true
  | .str s => s.length != 0
  | .arr xs => xs.length != 0
  | .obj kvs => kvs.length != 0

/-- dict.get with a default, taking the last entry with the given key. -/
def pyDictGet (kvs : List (String × Json)) (k : String) (dflt : Json) : Json :=
  match kvs.reverse.find? (fun kv => kv.1 == k) with
  | some kv => kv.2
  | none => dflt

/-!  ## LLM client adapter (execute_prompt and _estimate_cost)

The provider interaction of execute_prompt is effectful; it is embedded by
an outcome value describing what the provider did on this call: get_llm
returned None (no credential), llm.invoke returned a response (content plus
optional usage metadata), or llm.invoke raised.  The elapsed wall-clock
time is a parameter, since real time is outside the model.  The function is
total: the source wraps the provider call in a try block whose except
clause returns a dictionary, so no exception escapes this boundary. -/

/-- Python round to 6 decimal digits, half-to-even, over exact rationals
    (the source computes on binary floats; the rounding of the float
    representation itself is not modelled). -/
def roundHalfEven (x : ℚ) : ℤ :=
  let fl := Int.floor x
  let r : ℚ := x - fl
  if r < 1 / 2 then fl
  else if r > 1 / 2 then fl + 1
  else if Even fl then fl else fl + 1

def round6 (x : ℚ) : ℚ :=
  (roundHalfEven (x * 1000000) : ℚ) / 1000000

/-- The static pricing table of _estimate_cost: model identifier to
    (input rate, output rate) per thousand tokens. -/
def pricing : List (String × (ℚ × ℚ)) :=
  [ ("gpt-4o-mini", (0.00015, 0.0006)),
    ("gpt-4o", (0.005, 0.015)),
    ("gpt-4", (0.03, 0.06)),
    ("claude-3-5-sonnet-20241022", (0.003, 0.015)),
    ("claude-3-haiku-20240307", (0.00025, 0.00125)) ]

/-- services.py _estimate_cost: table lookup with default rates (0.001,
    0.002), cost = tokens_in/1000 * input rate + tokens_out/1000 * output
    rate, rounded to 6 decimal places. -/
def _estimate_cost (model : String) (tokens_in tokens_out : Nat) : ℚ :=
  let rates := (List.lookup model pricing).getD (0.001, 0.002)
  round6 ((tokens_in / 1000 : ℚ) * rates.1 + (tokens_out / 1000 : ℚ) * rates.2)

/-- The dictionary returned by execute_prompt (and by every pipeline
    runner).  The calls field is bookkeeping added by the embedding: the
    number of execute_prompt invocations a pipeline made to produce this
    result. -/
structure ExecResult where
  output : String
  error : Option String := none
  tokens_input : Nat
  tokens_output : Nat
  cost_estimate : ℚ
  latency_ms : Nat
  model : String

/-- What the provider did during one execute_prompt call. -/
inductive LLMOutcome where
  | noKey
  | responds (content : String) (usage_in usage_out : Option Nat)
  | raises (msg : String)

/-- str.split() with no argument counts maximal nonblank runs. -/
def wordCountAux : Bool → List Char → Nat
  | _, [] => 0
  | inw, c :: cs =>
    if pyIsSpace c then wordCountAux false cs
    else (if inw then 0 else 1) + wordCountAux true cs

def pyWordCount (s : String) : Nat := wordCountAux false s.data

/-- services.py execute_prompt.  The demo-mode branch reproduces the
    placeholder text of the source; the success branch takes token counts
    from usage metadata with whitespace word counts as fallback; the
    failure branch catches the exception and returns an error result with
    empty output and zeroed token and cost fields. -/
def execute_prompt (outcome : LLMOutcome) (elapsed : Nat)
    (system_prompt user_prompt model : String) : ExecResult :=
  match outcome with
  | .noKey =>
    { output :=
        "[Demo Mode - No API key configured]\n\nThis is a simulated response for the given prompt. Configure OPENAI_API_KEY or ANTHROPIC_API_KEY in your .env file to get real AI responses.\n\nSystem prompt: "
        ++ (⟨system_prompt.data.take 100⟩ : String)
        ++ "...\nUser input length: " ++ toString user_prompt.length ++ " chars",
      tokens_input := pyWordCount user_prompt,
      tokens_output := 50,
      cost_estimate := 0,
      latency_ms := elapsed,
      model := model }
  | .responds content usage_in usage_out =>
    let tin := usage_in.getD (pyWordCount user_prompt)
    let tout := usage_out.getD (pyWordCount content)
    { output := content,
      tokens_input := tin,
      tokens_output := tout,
      cost_estimate := _estimate_cost model tin tout,
      latency_ms := elapsed,
      model := model }
  | .raises msg =>
    { output := "",
      error := some msg,
      tokens_input := 0,
      tokens_output := 0,
      cost_estimate := 0,
      latency_ms := elapsed,
      model := model }

/-!  ## Pipeline runners

Each pipeline issues a sequence of execute_prompt calls.  The embedding
abstracts the adapter behind an environment env : Nat → ExecResult giving
the result of the n-th adapter call of the run (covering every possible
adapter behaviour); prompt strings fed to the adapter are not materialised,
except where their construction itself can raise (the retry prompt of
enforce_schema reads a local variable that previous iterations may never
have assigned). -/

/-- Entry of the all_attempts list of enforce_schema. -/
structure SchemaAttempt where
  attempt : Nat
  valid : Bool
  output : Option String := none
  error : Option String := none
deriving DecidableEq

/-- The validation step of one enforce_schema attempt: sanitize, take the
    widest brace span (falling back to a bracket span only when no opening
    brace exists at all), and json-parse it.  nospan is the fall-through
    where the source neither records an attempt nor assigns
    validation_errors. -/
inductive VCheck where
  | valid
  | invalid (e : String)
  | nospan
deriving DecidableEq

/-- str.find: index of first occurrence or -1. -/
def pyFindAux (c : Char) : List Char → Nat → Option Nat
  | [], _ => none
  | x :: xs, i => if x = c then some i else pyFindAux c xs (i + 1)

def pyFind (s : List Char) (c : Char) : Int :=
  ((pyFindAux c s 0).map Int.ofNat).getD (-1)

/-- str.rfind: index of last occurrence or -1. -/
def pyRFind (s : List Char) (c : Char) : Int :=
  match pyFindAux c s.reverse 0 with
  | some j => (s.length : Int) - 1 - j
  | none => -1

/-- The bracket span sanitized[start:end+1] selected by enforce_schema, if
    its guard start >= 0 and end > start holds. -/
def spanOf (s : List Char) : Option (List Char) :=
  let st := pyFind s '\x7b'
  let en := pyRFind s '\x7d'
  let p : Int × Int := if st < 0 then (pyFind s '[', pyRFind s ']') else (st, en)
  if 0 ≤ p.1 ∧ p.1 < p.2 then
    some ((s.drop p.1.toNat).take (p.2.toNat + 1 - p.1.toNat))
  else none

def vcheck (out : String) : VCheck :=
  match spanOf (sanitizeL out.data) with
  | none => .nospan
  | some sp =>
    match json_loadsL sp with
    | .ok _ => .valid
    | .error e => .invalid e

/-- An attempt output that enforce_schema would accept. -/
def attemptValid (out : String) : Bool :=
  match vcheck out with
  | .valid => true
  | _ => false

/-- The dictionary returned by enforce_schema.  The source serialises
    result, attempts, total_attempts and success into the output string via
    json.dumps; the embedding keeps them structured. -/
structure EnforceReturn where
  result : Option String
  attempts : List SchemaAttempt
  total_attempts : Nat
  success : Bool
  tokens_input : Nat
  tokens_output : Nat
  cost_estimate : ℚ
  latency_ms : Nat
  calls : Nat
deriving DecidableEq

/-- The retry loop of enforce_schema.  Arguments: iterations left, current
    attempt index, the validation_errors local (none while unassigned), the
    best_output local, the all_attempts list.  Returns best_output,
    all_attempts, the result local of the last executed call, and the
    number of calls made; or the uncaught exception.  An iteration with
    attempt > 0 interpolates validation_errors into the retry prompt before
    calling the adapter, which raises UnboundLocalError if no previous
    iteration assigned it. -/
def enforceLoop (env : Nat → ExecResult) :
    Nat → Nat → Option String → Option String → List SchemaAttempt →
    Except String (Option String × List SchemaAttempt × ExecResult × Nat)
  | 0, _, _, _, _ => .error "internal: loop entered with zero iterations"
  | r + 1, a, verr, best, atts =>
    if a ≠ 0 ∧ verr = none then
      .error "UnboundLocalError: cannot access local variable referenced before assignment"
    else
      match vcheck (env a).output with
      | .valid =>
        .ok (some (env a).output,
             atts ++ [⟨a + 1, true, some (env a).output, none⟩], env a, a + 1)
      | .invalid e =>
        if r = 0 then
          .ok (some (env a).output, atts ++ [⟨a + 1, false, none, some e⟩], env a, a + 1)
        else
          enforceLoop env r (a + 1) (some e) (some (env a).output)
            (atts ++ [⟨a + 1, false, none, some e⟩])
      | .nospan =>
        if r = 0 then .ok (best, atts, env a, a + 1)
        else enforceLoop env r (a + 1) verr best atts

/-- services.py enforce_schema.  With max_retries = 0 the loop body never
    runs and the trailing result.get lookups raise NameError on the unbound
    result local; this is embedded as an error as well. -/
def enforce_schema (env : Nat → ExecResult) (max_retries : Nat) :
    Except String EnforceReturn :=
  match max_retries with
  | 0 => .error "NameError: name result is not defined"
  | n + 1 =>
    match enforceLoop env (n + 1) 0 none none [] with
    | .error e => .error e
    | .ok (best, atts, res, calls) =>
      .ok { result := best,
            attempts := atts,
            total_attempts := atts.length,
            success := ((atts.getLast?).map (·.valid)).getD false,
            tokens_input := res.tokens_input,
            tokens_output := res.tokens_output,
            cost_estimate := res.cost_estimate,
            latency_ms := res.latency_ms,
            calls := calls }

/-!  ## Self-correcting loop (execute_self_correcting) -/

/-- An entry of the rounds list: round number, entry type (generation,
    critique or revision), stage output. -/
structure RoundEntry where
  round : Nat
  rtype : String
  output : String
deriving DecidableEq

/-- The break test of the loop: the sanitized critique parses to a dict
    whose passes_threshold entry is truthy (default False); parse failures
    and non-dict values are treated as not passing, matching the except
    clause and the isinstance guard. -/
def critique_passes (s : String) : Bool :=
  match json_loads (_sanitize_json s) with
  | .ok (.obj kvs) => pyTruthy (pyDictGet kvs "passes_threshold" (.bool false))
  | .ok _ => false
  | .error _ => false

/-- Running state of the loop: the current_output local, the rounds list,
    the three accumulated totals and the adapter call count. -/
structure SCState where
  current : String
  rounds : List RoundEntry
  tokens : Nat
  cost : ℚ
  latency : Nat
  calls : Nat

/-- Fold one adapter result into the accumulated totals and call count. -/
def scAdd (st : SCState) (r : ExecResult) : SCState :=
  { st with
    tokens := st.tokens + r.tokens_input + r.tokens_output,
    cost := st.cost + r.cost_estimate,
    latency := st.latency + r.latency_ms,
    calls := st.calls + 1 }

/-- The critique and revise loop with the given iterations left, i being
    the Python loop index: critique, stop if it passes the threshold,
    otherwise revise and continue. -/
def scLoop (env : Nat → ExecResult) : Nat → Nat → SCState → SCState
  | 0, _, st => st
  | r + 1, i, st =>
    let cres := env st.calls
    let st1 := { scAdd st cres with
                 rounds := st.rounds ++ [⟨i + 1, "critique", cres.output⟩] }
    if critique_passes cres.output then st1
    else
      let vres := env st1.calls
      let st2 := { scAdd st1 vres with
                   current := vres.output,
                   rounds := st1.rounds ++ [⟨i + 1, "revision", vres.output⟩] }
      scLoop env r (i + 1) st2

/-- The dictionary returned by execute_self_correcting; final_output,
    rounds and total_rounds are serialised into the output string by the
    source, tokens_input carries the accumulated total of input plus output
    tokens and tokens_output is reported as zero. -/
structure SCReturn where
  final_output : String
  rounds : List RoundEntry
  total_rounds : Nat
  tokens_input : Nat
  tokens_output : Nat
  cost_estimate : ℚ
  latency_ms : Nat
  calls : Nat

/-- State after the initial generation call: one generation entry in the
    rounds list, the totals of that call, one call made. -/
def scInit (env : Nat → ExecResult) : SCState :=
  { current := (env 0).output,
    rounds := [⟨1, "generation", (env 0).output⟩],
    tokens := (env 0).tokens_input + (env 0).tokens_output,
    cost := (env 0).cost_estimate,
    latency := (env 0).latency_ms,
    calls := 1 }

/-- services.py execute_self_correcting: one generation call, then up to
    max_rounds critique (and, short of the threshold, revise) rounds. -/
def execute_self_correcting (env : Nat → ExecResult) (max_rounds : Nat) : SCReturn :=
  let fin := scLoop env max_rounds 0 (scInit env)
  { final_output := fin.current,
    rounds := fin.rounds,
    total_rounds := (fin.rounds.filter (fun e => e.rtype == "critique")).length,
    tokens_input := fin.tokens,
    tokens_output := 0,
    cost_estimate := fin.cost,
    latency_ms := fin.latency,
    calls := fin.calls }

/-!  ## Quality gate pipeline (execute_quality_pipeline) -/

/-- Entry of the stages list: stage label, status, stage output. -/
structure StageEntry where
  stage : String
  status : String
  output : String
deriving DecidableEq

/-- The passed local after the safety check stage: the raw value of the
    dict entry passed (default True), kept as a json value because the
    source stores it unconverted under all_passed.  A successful parse to a
    non-dict value makes the attribute lookup .get raise AttributeError,
    which no except clause catches; a parse failure is caught and leaves
    passed = True. -/
def qp_passed (s : String) : Except String Json :=
  match json_loads (_sanitize_json s) with
  | .ok (.obj kvs) => .ok (pyDictGet kvs "passed" (.bool true))
  | .ok _ => .error "AttributeError: object has no attribute get"
  | .error _ => .ok (.bool true)

/-- The dictionary returned by execute_quality_pipeline; final_content,
    stages and all_passed are serialised into the output string by the
    source. -/
structure QPReturn where
  final_content : String
  stages : List StageEntry
  all_passed : Json
  tokens_input : Nat
  tokens_output : Nat
  cost_estimate : ℚ
  latency_ms : Nat
  calls : Nat

/-- services.py execute_quality_pipeline: generate, safety check, and a
    revise plus re-validate pair that runs only when the check value is
    falsy. -/
def execute_quality_pipeline (env : Nat → ExecResult) : Except String QPReturn :=
  let gen := env 0
  let content := gen.output
  let check := env 1
  let checkOut := check.output
  match qp_passed checkOut with
  | .error e => .error e
  | .ok passedVal =>
    let passed := pyTruthy passedVal
    let stages01 : List StageEntry :=
      [⟨"Generator", "completed", content⟩,
       ⟨"Safety & Quality Check", if passed then "passed" else "failed", checkOut⟩]
    let t01 := gen.tokens_input + gen.tokens_output + (check.tokens_input + check.tokens_output)
    let c01 := gen.cost_estimate + check.cost_estimate
    let l01 := gen.latency_ms + check.latency_ms
    if passed then
      .ok { final_content := content,
            stages := stages01 ++
              [⟨"Reviser", "skipped", "Not needed - all checks passed"⟩,
               ⟨"Final Validation", "skipped", "Not needed"⟩],
            all_passed := passedVal,
            tokens_input := t01,
            tokens_output := 0,
            cost_estimate := c01,
            latency_ms := l01,
            calls := 2 }
    else
      let revise := env 2
      let recheck := env 3
      .ok { final_content := revise.output,
            stages := stages01 ++
              [⟨"Reviser", "completed", revise.output⟩,
               ⟨"Final Validation", "completed", recheck.output⟩],
            all_passed := passedVal,
            tokens_input := t01 + (revise.tokens_input + revise.tokens_output)
              + (recheck.tokens_input + recheck.tokens_output),
            tokens_output := 0,
            cost_estimate := c01 + revise.cost_estimate + recheck.cost_estimate,
            latency_ms := l01 + revise.latency_ms + recheck.latency_ms,
            calls := 4 }

/-!  ## Analytics success-rate aggregation (analytics/views.py) -/

/-- The success_rate aggregate of performance_metrics over the execution
    records in the query window, keyed by their status values.  The source
    computes the completed bucket with the Python conditional expression
    Count of id filtered on status if False else Count of id, whose
    condition is the literal False, so the filtered count is dead code and
    every record is counted. -/
structure SRAgg where
  total : Nat
  completed : Nat
deriving DecidableEq

def success_rate_agg (statuses : List String) : SRAgg :=
  { total := statuses.length,
    completed :=
      if False then (statuses.filter (fun s => s == "completed")).length
      else statuses.length }

/-!  ## Fixed points of the sanitizer

The second application of _sanitize_json is the identity exactly when every
phase fixes the output of the first application.  The conditions below are
decidable syntactic properties of a string; subFix asks that at every
suffix the matcher either fails or reproduces the text it matched. -/

/-- The matcher at the head of s either fails or reproduces s. -/
def headFix (m : Matcher) (s : List Char) : Bool :=
  match m s with
  | none => true
  | some (r, rest) => decide (r ++ rest = s)

/-- headFix at every suffix of s. -/
def subFix (m : Matcher) : List Char → Bool
  | [] => true
  | c :: cs => headFix m (c :: cs) && subFix m cs

theorem subFix_tail {m : Matcher} {c : Char} {cs : List Char}
    (h : subFix m (c :: cs) = true) : subFix m cs = true := by
  simp only [subFix, Bool.and_eq_true] at h
  exact h.2

theorem subFix_append {m : Matcher} :
    ∀ pre s, subFix m (pre ++ s) = true → subFix m s = true := by
  intro pre
  induction pre with
  | nil => intro s h; exact h
  | cons c cs ih => intro s h; exact ih s (subFix_tail h)

/-- A scan by pySub leaves every subFix string unchanged, at any fuel. -/
theorem pySub_of_subFix (m : Matcher) :
    ∀ f s, subFix m s = true → pySub m f s = s := by
  intro f
  induction f with
  | zero => intro s _; rfl
  | succ f ih =>
    intro s h
    match s with
    | [] => rfl
    | c :: cs =>
      rw [pySub]
      cases hm : m (c :: cs) with
      | none =>
        show c :: pySub m f cs = c :: cs
        rw [ih cs (subFix_tail h)]
      | some p =>
        obtain ⟨r, rest⟩ := p
        have hhead : headFix m (c :: cs) = true := by
          simp only [subFix, Bool.and_eq_true] at h
          exact h.1
        have heq : r ++ rest = c :: cs := by
          simp only [headFix, hm, decide_eq_true_eq] at hhead
          exact hhead
        have hrest : subFix m rest = true := by
          have := subFix_append (m := m) r rest
          rw [heq] at this
          exact this h
        show r ++ pySub m f rest = c :: cs
        rw [ih rest hrest, heq]

theorem pySubAll_of_subFix {m : Matcher} {s : List Char}
    (h : subFix m s = true) : pySubAll m s = s :=
  pySub_of_subFix m s.length s h

/-- Neither end of the string is whitespace. -/
def strippedB (s : List Char) : Bool :=
  (match s.head? with | some c => !pyIsSpace c | none => true) &&
  (match s.getLast? with | some c => !pyIsSpace c | none => true)

theorem dropWhile_id_of_head {p : Char → Bool} :
    ∀ s : List Char, (match s.head? with | some c => !p c | none => true) = true →
    s.dropWhile p = s := by
  intro s h
  match s with
  | [] => rfl
  | c :: cs =>
    simp only [List.head?, Bool.not_eq_true'] at h
    simp [List.dropWhile, h]

theorem pyStrip_id {s : List Char} (h : strippedB s = true) : pyStrip s = s := by
  simp only [strippedB, Bool.and_eq_true] at h
  obtain ⟨h1, h2⟩ := h
  rw [pyStrip, dropWhile_id_of_head s h1, dropWhile_id_of_head s.reverse
    (by rw [List.head?_reverse]; exact h2), List.reverse_reverse]

/-- The string does not end in a backtick. -/
def noTrailTick (s : List Char) : Bool :=
  match s.getLast? with
  | some c => decide (c ≠ '\x60')
  | none => true

theorem pyRStripTick_id {s : List Char} (h : noTrailTick s = true) :
    pyRStripTick s = s := by
  rw [pyRStripTick, dropWhile_id_of_head s.reverse ?_, List.reverse_reverse]
  rw [List.head?_reverse]
  unfold noTrailTick at h
  cases hx : s.getLast? with
  | none => simp
  | some c =>
    rw [hx] at h
    simp only [decide_eq_true_eq] at h
    simp [h]

/-- A string every sanitizer phase fixes. -/
def sanitizeFixed (s : List Char) : Bool :=
  subFix fenceM s && strippedB s && noTrailTick s &&
  subFix (kwM nullKW) s && subFix (kwM trueKW) s && subFix (kwM falseKW) s &&
  subFix commaM s

theorem sanitizeL_fix {s : List Char} (h : sanitizeFixed s = true) :
    sanitizeL s = s := by
  simp only [sanitizeFixed, Bool.and_eq_true] at h
  obtain ⟨⟨⟨⟨⟨⟨h1, h2⟩, h3⟩, h4⟩, h5⟩, h6⟩, h7⟩ := h
  rw [sanitizeL, pySubAll_of_subFix h1, pyStrip_id h2, pyRStripTick_id h3,
    pyStrip_id h2, pySubAll_of_subFix h4, pySubAll_of_subFix h5,
    pySubAll_of_subFix h6, pySubAll_of_subFix h7]

/-- C2 counterexample: sanitization is not idempotent on the input of two
    commas before a closing brace; one application leaves a comma before the
    brace, which a second application removes. -/
theorem C2_counterexample :
    _sanitize_json (_sanitize_json ",,\x7d") ≠ _sanitize_json ",,\x7d" := by
  decide

/-- C2 (amended): applying the result-parser sanitization twice gives the
    same result as applying it once for every input whose sanitized form is
    a fixed point of each phase: no code fence, whitespace-trimmed ends, no
    trailing backtick, every colon-keyword span already collapsed, and no
    comma left before a closing brace or bracket.  The unrestricted claim is
    false (see the counterexample). -/
theorem stringDataMk (l : List Char) : (⟨l⟩ : String).data = l := rfl

theorem C2_sanitize_idempotent_on_fixed (x : String)
    (h : sanitizeFixed (sanitizeL x.data) = true) :
    _sanitize_json (_sanitize_json x) = _sanitize_json x := by
  unfold _sanitize_json
  rw [stringDataMk]
  exact congrArg String.mk (sanitizeL_fix h)

/-- Witness for C2 at the fenced example input from the specification. -/
theorem C2_witness :
    sanitizeFixed (sanitizeL ("```json\n\x7b\"a\": TRUE, \"b\": NULL,\x7d\n```" : String).data) = true ∧
    _sanitize_json (_sanitize_json "```json\n\x7b\"a\": TRUE, \"b\": NULL,\x7d\n```") =
      _sanitize_json "```json\n\x7b\"a\": TRUE, \"b\": NULL,\x7d\n```" :=
  ⟨by decide, C2_sanitize_idempotent_on_fixed _ (by decide)⟩

/-- C8: sanitizing the fenced example with uppercase TRUE and NULL and a
    trailing comma yields text that json.loads parses to the object with a
    mapped to true and b mapped to null. -/
theorem C8_sanitize_example :
    json_loads (_sanitize_json "```json\n\x7b\"a\": TRUE, \"b\": NULL,\x7d\n```") =
      Except.ok (Json.obj [("a", Json.bool true), ("b", Json.null)]) := by
  rfl

/-- C3: in the analytics success-rate aggregation the completed count equals
    the total count for every list of execution records, whatever their
    status values: the conditional expression guarding the filtered count
    has the literal False as its condition, so every record is counted. -/
theorem C3_success_rate_completed_eq_total (statuses : List String) :
    (success_rate_agg statuses).completed = (success_rate_agg statuses).total := by
  simp [success_rate_agg]

/-- C4: when the provider invocation raises, execute_prompt returns a result
    with the error field set to the exception text, empty output, zero token
    counts, zero cost and the elapsed latency.  The embedding of
    execute_prompt is a total function into results, reflecting that the
    source catches every exception from the provider call at this
    boundary. -/
theorem C4_execute_prompt_error_boundary (msg : String) (elapsed : Nat)
    (system_prompt user_prompt model : String) :
    execute_prompt (.raises msg) elapsed system_prompt user_prompt model =
      { output := "", error := some msg, tokens_input := 0, tokens_output := 0,
        cost_estimate := 0, latency_ms := elapsed, model := model } := by
  rfl

/-!  ## Cost estimation facts -/

theorem roundHalfEven_intCast (n : ℤ) : roundHalfEven (n : ℚ) = n := by
  unfold roundHalfEven
  rw [Int.floor_intCast]
  norm_num

theorem round6_of_int {x : ℚ} {n : ℤ} (h : x * 1000000 = (n : ℚ)) :
    round6 x = (n : ℚ) / 1000000 := by
  unfold round6
  rw [h, roundHalfEven_intCast]

/-- C9: for every model identifier in the pricing table the estimated cost
    of 1000 input and 1000 output tokens is the sum of the input and output
    rates of its entry; identifiers missing from the table use the default
    rate pair 0.001 and 0.002; and in general the cost is tokens divided by
    1000 times the rates, rounded to 6 decimal places.  Rates are exact
    rationals here; the float representation error of the source, below the
    rounding grain for these table values, is not modelled. -/
theorem C9_estimate_cost_table :
    (_estimate_cost "gpt-4o-mini" 1000 1000 = 0.00015 + 0.0006) ∧
    (_estimate_cost "gpt-4o" 1000 1000 = 0.005 + 0.015) ∧
    (_estimate_cost "gpt-4" 1000 1000 = 0.03 + 0.06) ∧
    (_estimate_cost "claude-3-5-sonnet-20241022" 1000 1000 = 0.003 + 0.015) ∧
    (_estimate_cost "claude-3-haiku-20240307" 1000 1000 = 0.00025 + 0.00125) ∧
    (∀ m : String, List.lookup m pricing = none →
      ∀ tin tout : Nat, _estimate_cost m tin tout =
        round6 ((tin / 1000 : ℚ) * 0.001 + (tout / 1000 : ℚ) * 0.002)) ∧
    (∀ (m : String) (tin tout : Nat), _estimate_cost m tin tout =
      round6 ((tin / 1000 : ℚ) * ((List.lookup m pricing).getD (0.001, 0.002)).1
        + (tout / 1000 : ℚ) * ((List.lookup m pricing).getD (0.001, 0.002)).2)) := by
  refine ⟨?_, ?_, ?_, ?_, ?_, ?_, ?_⟩
  · unfold _estimate_cost
    rw [show List.lookup "gpt-4o-mini" pricing = some (0.00015, 0.0006) from rfl]
    rw [round6_of_int (n := 750) (by norm_num)]
    norm_num
  · unfold _estimate_cost
    rw [show List.lookup "gpt-4o" pricing = some (0.005, 0.015) from rfl]
    rw [round6_of_int (n := 20000) (by norm_num)]
    norm_num
  · unfold _estimate_cost
    rw [show List.lookup "gpt-4" pricing = some (0.03, 0.06) from rfl]
    rw [round6_of_int (n := 90000) (by norm_num)]
    norm_num
  · unfold _estimate_cost
    rw [show List.lookup "claude-3-5-sonnet-20241022" pricing = some (0.003, 0.015) from rfl]
    rw [round6_of_int (n := 18000) (by norm_num)]
    norm_num
  · unfold _estimate_cost
    rw [show List.lookup "claude-3-haiku-20240307" pricing = some (0.00025, 0.00125) from rfl]
    rw [round6_of_int (n := 1500) (by norm_num)]
    norm_num
  · intro m hm tin tout
    unfold _estimate_cost
    rw [hm]
    rfl
  · intro m tin tout
    rfl

/-- Witness for C9 at an identifier outside the table. -/
theorem C9_witness :
    List.lookup "mystery-model" pricing = none ∧
    _estimate_cost "mystery-model" 1000 1000 =
      round6 ((1000 / 1000 : ℚ) * 0.001 + (1000 / 1000 : ℚ) * 0.002) :=
  ⟨by decide, C9_estimate_cost_table.2.2.2.2.2.1 "mystery-model" (by decide) 1000 1000⟩

/-!  ## Schema enforcement facts -/

/-- A first attempt whose check is valid ends the loop at once. -/
theorem enforceLoop_valid_first (env : Nat → ExecResult) (r a : Nat)
    (verr best : Option String) (atts : List SchemaAttempt)
    (hok : ¬(a ≠ 0 ∧ verr = none)) (hv : vcheck (env a).output = .valid) :
    enforceLoop env (r + 1) a verr best atts =
      .ok (some (env a).output, atts ++ [⟨a + 1, true, some (env a).output, none⟩],
           env a, a + 1) := by
  rw [enforceLoop, if_neg hok]
  simp only [hv]

/-- Unfolding enforce_schema after a successful loop run. -/
theorem enforce_schema_ok (env : Nat → ExecResult) (n : Nat)
    (best : Option String) (atts : List SchemaAttempt) (res : ExecResult) (calls : Nat)
    (h : enforceLoop env (n + 1) 0 none none [] = .ok (best, atts, res, calls)) :
    enforce_schema env (n + 1) =
      .ok { result := best, attempts := atts, total_attempts := atts.length,
            success := ((atts.getLast?).map (·.valid)).getD false,
            tokens_input := res.tokens_input, tokens_output := res.tokens_output,
            cost_estimate := res.cost_estimate, latency_ms := res.latency_ms,
            calls := calls } := by
  simp only [enforce_schema, h]

/-- C5: with max_retries = 3, a first adapter output that passes the span
    and parse check makes enforce_schema stop after exactly one adapter
    call, returning an attempt list of length one with total_attempts = 1
    and success = true and the metrics of that single call. -/
theorem C5_first_attempt_valid (env : Nat → ExecResult)
    (h : attemptValid (env 0).output = true) :
    enforce_schema env 3 =
      Except.ok
        { result := some (env 0).output,
          attempts := [⟨1, true, some (env 0).output, none⟩],
          total_attempts := 1, success := true,
          tokens_input := (env 0).tokens_input,
          tokens_output := (env 0).tokens_output,
          cost_estimate := (env 0).cost_estimate,
          latency_ms := (env 0).latency_ms,
          calls := 1 } := by
  have hv : vcheck (env 0).output = .valid := by
    unfold attemptValid at h
    cases hc : vcheck (env 0).output
    · rfl
    · rw [hc] at h; simp at h
    · rw [hc] at h; simp at h
  have h1 : enforceLoop env 3 0 none none [] =
      .ok (some (env 0).output, [⟨1, true, some (env 0).output, none⟩], env 0, 1) :=
    enforceLoop_valid_first env 2 0 none none [] (by simp) hv
  exact enforce_schema_ok env 2 _ _ _ _ h1

/-- Witness for C5: an environment whose first output is an empty json
    object. -/
def envValid1 : Nat → ExecResult := fun i =>
  { output := "\x7b\x7d", tokens_input := 10 + i, tokens_output := i,
    cost_estimate := (i : ℚ), latency_ms := 100 + i, model := "m" }

theorem C5_witness :
    attemptValid (envValid1 0).output = true ∧
    enforce_schema envValid1 3 =
      Except.ok
        { result := some (envValid1 0).output,
          attempts := [⟨1, true, some (envValid1 0).output, none⟩],
          total_attempts := 1, success := true,
          tokens_input := (envValid1 0).tokens_input,
          tokens_output := (envValid1 0).tokens_output,
          cost_estimate := (envValid1 0).cost_estimate,
          latency_ms := (envValid1 0).latency_ms,
          calls := 1 } :=
  ⟨by decide, C5_first_attempt_valid envValid1 (by decide)⟩

/-- Adapter outputs with no brace or bracket at all, each unparseable. -/
def envHello : Nat → ExecResult := fun i =>
  { output := "hello", tokens_input := 10 + i, tokens_output := i,
    cost_estimate := (i : ℚ), latency_ms := 100 + i, model := "m" }

/-- C6: when an attempt output has no bracket span, the source appends no
    attempt record and assigns no validation_errors, and the next iteration
    raises UnboundLocalError while interpolating validation_errors into the
    retry prompt; with max_retries = 2 and unparseable brace-free outputs
    the call therefore crashes after one adapter call instead of performing
    max_retries calls and reporting success = false. -/
theorem C6_unbound_local_crash :
    enforce_schema envHello 2 =
      Except.error
        "UnboundLocalError: cannot access local variable referenced before assignment" ∧
    (json_loads (_sanitize_json "hello")).toOption = none := by
  constructor
  · rfl
  · rfl

/-!  ## Metric accumulation facts -/

/-- Total of input plus output tokens over the first n adapter calls. -/
def envTokSum (env : Nat → ExecResult) (n : Nat) : Nat :=
  ∑ i in Finset.range n, ((env i).tokens_input + (env i).tokens_output)

/-- Total cost over the first n adapter calls. -/
def envCostSum (env : Nat → ExecResult) (n : Nat) : ℚ :=
  ∑ i in Finset.range n, (env i).cost_estimate

/-- Total latency over the first n adapter calls. -/
def envLatSum (env : Nat → ExecResult) (n : Nat) : Nat :=
  ∑ i in Finset.range n, (env i).latency_ms

/-- The states of the self-correcting loop carry exactly the sums of the
    metrics of the calls made so far. -/
theorem scLoop_invariant (env : Nat → ExecResult) :
    ∀ (r i : Nat) (st : SCState),
      st.tokens = envTokSum env st.calls →
      st.cost = envCostSum env st.calls →
      st.latency = envLatSum env st.calls →
      (scLoop env r i st).tokens = envTokSum env (scLoop env r i st).calls ∧
      (scLoop env r i st).cost = envCostSum env (scLoop env r i st).calls ∧
      (scLoop env r i st).latency = envLatSum env (scLoop env r i st).calls := by
  intro r
  induction r with
  | zero => intro i st h1 h2 h3; exact ⟨h1, h2, h3⟩
  | succ r ih =>
    intro i st h1 h2 h3
    rw [scLoop]
    by_cases hp : critique_passes ((env st.calls)).output = true
    · rw [if_pos hp]
      refine ⟨?_, ?_, ?_⟩
      · simp only [scAdd, h1, envTokSum, Finset.sum_range_succ]
        try omega
      · simp only [scAdd, h2, envCostSum, Finset.sum_range_succ]
        try ring
      · simp only [scAdd, h3, envLatSum, Finset.sum_range_succ]
        try omega
    · rw [if_neg hp]
      apply ih
      · simp only [scAdd, h1, envTokSum, Finset.sum_range_succ]
        try omega
      · simp only [scAdd, h2, envCostSum, Finset.sum_range_succ]
        try ring
      · simp only [scAdd, h3, envLatSum, Finset.sum_range_succ]
        try omega

set_option maxHeartbeats 1000000 in
/-- The last adapter result carried out of the retry loop of enforce_schema
    is the result of the final call made. -/
theorem enforceLoop_last (env : Nat → ExecResult) :
    ∀ (r a : Nat) (verr best : Option String) (atts : List SchemaAttempt)
      (b : Option String) (ats : List SchemaAttempt) (res : ExecResult) (n : Nat),
      enforceLoop env r a verr best atts = .ok (b, ats, res, n) →
      res = env (n - 1) := by
  intro r
  induction r with
  | zero =>
    intro a verr best atts b ats res n h
    exact absurd h (by simp [enforceLoop])
  | succ r ih =>
    intro a verr best atts b ats res n h
    rw [enforceLoop] at h
    split at h
    · exact absurd h (by simp)
    · split at h
      · simp only [Except.ok.injEq, Prod.mk.injEq] at h
        obtain ⟨-, -, hres, hn⟩ := h
        subst hn
        simpa using hres.symm
      · split at h
        · simp only [Except.ok.injEq, Prod.mk.injEq] at h
          obtain ⟨-, -, hres, hn⟩ := h
          subst hn
          simpa using hres.symm
        · exact ih _ _ _ _ _ _ _ _ h
      · split at h
        · simp only [Except.ok.injEq, Prod.mk.injEq] at h
          obtain ⟨-, -, hres, hn⟩ := h
          subst hn
          simpa using hres.symm
        · exact ih _ _ _ _ _ _ _ _ h

/-- First attempt output with a brace span that fails to parse, second
    attempt output a valid empty object; the two calls carry different
    metric values. -/
def envA : Nat → ExecResult := fun i =>
  if i = 0 then
    { output := "\x7bbad\x7d", tokens_input := 5, tokens_output := 5,
      cost_estimate := 1, latency_ms := 10, model := "m" }
  else
    { output := "\x7b\x7d", tokens_input := 7, tokens_output := 3,
      cost_estimate := 2, latency_ms := 20, model := "m" }

/-- The tokens_input and calls fields of a non-crashing enforce_schema
    run. -/
def okMetrics : Except String EnforceReturn → Option (Nat × Nat)
  | .ok r => some (r.tokens_input, r.calls)
  | .error _ => none

/-- C1 counterexample: a schema-enforcement run that makes two adapter
    calls (5 then 7 input tokens) returns tokens_input = 7, the value of
    the final attempt alone, not the sum 12 over all adapter calls. -/
theorem C1_counterexample :
    okMetrics (enforce_schema envA 3) = some (7, 2) ∧
    (envA 0).tokens_input + (envA 1).tokens_input = 12 ∧ (7 : Nat) ≠ 12 :=
  ⟨rfl, rfl, by decide⟩

/-- C1 (amended): the self-correcting pipeline accumulates the token, cost
    and latency values of every adapter call it makes into the returned
    totals (the combined input and output tokens are reported under
    tokens_input); enforce_schema instead reports only the metrics of its
    final adapter call, reading them off the result local left by the last
    loop iteration. -/
theorem C1_metrics_accumulation :
    (∀ (env : Nat → ExecResult) (max_rounds : Nat),
      (execute_self_correcting env max_rounds).tokens_input =
        envTokSum env (execute_self_correcting env max_rounds).calls ∧
      (execute_self_correcting env max_rounds).cost_estimate =
        envCostSum env (execute_self_correcting env max_rounds).calls ∧
      (execute_self_correcting env max_rounds).latency_ms =
        envLatSum env (execute_self_correcting env max_rounds).calls) ∧
    (∀ (env : Nat → ExecResult) (max_retries : Nat) (r : EnforceReturn),
      enforce_schema env max_retries = Except.ok r →
      r.tokens_input = (env (r.calls - 1)).tokens_input ∧
      r.tokens_output = (env (r.calls - 1)).tokens_output ∧
      r.cost_estimate = (env (r.calls - 1)).cost_estimate ∧
      r.latency_ms = (env (r.calls - 1)).latency_ms) := by
  constructor
  · intro env max_rounds
    simp only [execute_self_correcting]
    exact scLoop_invariant env max_rounds 0 (scInit env)
      (by simp [scInit, envTokSum]) (by simp [scInit, envCostSum])
      (by simp [scInit, envLatSum])
  · intro env max_retries r h
    match max_retries with
    | 0 => simp [enforce_schema] at h
    | n + 1 =>
      rw [enforce_schema] at h
      cases hl : enforceLoop env (n + 1) 0 none none [] with
      | error e => rw [hl] at h; exact absurd h (by simp)
      | ok t =>
        obtain ⟨best, atts, res, calls⟩ := t
        rw [hl] at h
        simp only [Except.ok.injEq] at h
        have hres : res = env (calls - 1) :=
          enforceLoop_last env (n + 1) 0 none none [] best atts res calls hl
        rw [← h]
        simp [hres]

/-- The concrete return of enforce_schema on envA with three retries. -/
def rA : EnforceReturn :=
  { result := some "\x7b\x7d",
    attempts :=
      [⟨1, false, none, some "Expecting property name enclosed in double quotes"⟩,
       ⟨2, true, some "\x7b\x7d", none⟩],
    total_attempts := 2, success := true,
    tokens_input := 7, tokens_output := 3, cost_estimate := 2,
    latency_ms := 20, calls := 2 }

/-- Witness for C1: the accumulation part evaluated on a concrete run and
    the last-attempt part evaluated on the two-attempt run of the
    counterexample. -/
theorem C1_witness :
    (execute_self_correcting envHello 3).tokens_input =
      envTokSum envHello (execute_self_correcting envHello 3).calls ∧
    rA.tokens_input = (envA (rA.calls - 1)).tokens_input :=
  ⟨(C1_metrics_accumulation.1 envHello 3).1,
   (C1_metrics_accumulation.2 envA 3 rA (by rfl)).1⟩

/-!  ## Self-correcting loop shape facts -/

/-- State after one critique call in loop iteration i. -/
def scCritStep (env : Nat → ExecResult) (i : Nat) (st : SCState) : SCState :=
  { scAdd st (env st.calls) with
    rounds := st.rounds ++ [⟨i + 1, "critique", (env st.calls).output⟩] }

/-- State after the revision call that follows a failed critique. -/
def scRevStep (env : Nat → ExecResult) (i : Nat) (st1 : SCState) : SCState :=
  { scAdd st1 (env st1.calls) with
    current := (env st1.calls).output,
    rounds := st1.rounds ++ [⟨i + 1, "revision", (env st1.calls).output⟩] }

theorem scLoop_pass (env : Nat → ExecResult) (r i : Nat) (st : SCState)
    (hp : critique_passes ((env st.calls)).output = true) :
    scLoop env (r + 1) i st = scCritStep env i st := by
  rw [scLoop]
  simp only [hp, if_true]
  rfl

theorem scLoop_fail (env : Nat → ExecResult) (r i : Nat) (st : SCState)
    (hp : critique_passes ((env st.calls)).output = false) :
    scLoop env (r + 1) i st =
      scLoop env r (i + 1) (scRevStep env i (scCritStep env i st)) := by
  rw [scLoop]
  simp only [hp, if_false]
  rfl

/-- Each loop iteration appends at most two entries to the rounds list. -/
theorem scLoop_len (env : Nat → ExecResult) :
    ∀ (r i : Nat) (st : SCState),
      (scLoop env r i st).rounds.length ≤ st.rounds.length + 2 * r := by
  intro r
  induction r with
  | zero => intro i st; simp [scLoop]
  | succ r ih =>
    intro i st
    by_cases hp : critique_passes ((env st.calls)).output = true
    · rw [scLoop_pass env r i st hp]
      simp only [scCritStep, scAdd, List.length_append, List.length_cons,
        List.length_nil]
      omega
    · rw [scLoop_fail env r i st (by simpa using hp)]
      refine le_trans (ih (i + 1) _) ?_
      simp only [scRevStep, scCritStep, scAdd, List.length_append,
        List.length_cons, List.length_nil]
      omega

/-- C7: with max_rounds = 3 the rounds list never exceeds 7 entries (one
    generation plus at most three critique and revision pairs), and on the
    first round k whose critique output parses with a truthy
    passes_threshold the run stops with the critique of round k as its last
    entry: 2 + 2k rounds entries and 2 + 2k adapter calls, so no revision
    of round k and no later critique happens. -/
theorem C7_self_correcting_shape (env : Nat → ExecResult) :
    (execute_self_correcting env 3).rounds.length ≤ 7 ∧
    (∀ k, k < 3 →
      (∀ j, j < k → critique_passes ((env (1 + 2 * j)).output) = false) →
      critique_passes ((env (1 + 2 * k)).output) = true →
      (execute_self_correcting env 3).rounds.length = 2 + 2 * k ∧
      (execute_self_correcting env 3).calls = 2 + 2 * k) := by
  constructor
  · have h := scLoop_len env 3 0 (scInit env)
    simp only [execute_self_correcting]
    simpa [scInit] using h
  · intro k hk hfail hpass
    interval_cases k
    · have hp0 : critique_passes ((env ((scInit env).calls)).output) = true := by
        simpa [scInit] using hpass
      have e1 : scLoop env 3 0 (scInit env) = scCritStep env 0 (scInit env) :=
        scLoop_pass env 2 0 (scInit env) hp0
      constructor <;>
        · simp only [execute_self_correcting]
          rw [e1]
          simp [scCritStep, scAdd, scInit]
    · have hf0 : critique_passes ((env ((scInit env).calls)).output) = false := by
        simpa [scInit] using hfail 0 (by norm_num)
      have e1 : scLoop env 3 0 (scInit env) =
          scLoop env 2 1 (scRevStep env 0 (scCritStep env 0 (scInit env))) :=
        scLoop_fail env 2 0 (scInit env) hf0
      have hp1 : critique_passes
          ((env ((scRevStep env 0 (scCritStep env 0 (scInit env))).calls)).output) = true := by
        simpa [scRevStep, scCritStep, scAdd, scInit] using hpass
      have e2 : scLoop env 2 1 (scRevStep env 0 (scCritStep env 0 (scInit env))) =
          scCritStep env 1 (scRevStep env 0 (scCritStep env 0 (scInit env))) :=
        scLoop_pass env 1 1 _ hp1
      constructor <;>
        · simp only [execute_self_correcting]
          rw [e1, e2]
          simp [scCritStep, scRevStep, scAdd, scInit]
    · have hf0 : critique_passes ((env ((scInit env).calls)).output) = false := by
        simpa [scInit] using hfail 0 (by norm_num)
      have e1 : scLoop env 3 0 (scInit env) =
          scLoop env 2 1 (scRevStep env 0 (scCritStep env 0 (scInit env))) :=
        scLoop_fail env 2 0 (scInit env) hf0
      have hf1 : critique_passes
          ((env ((scRevStep env 0 (scCritStep env 0 (scInit env))).calls)).output) = false := by
        simpa [scRevStep, scCritStep, scAdd, scInit] using hfail 1 (by norm_num)
      have e2 : scLoop env 2 1 (scRevStep env 0 (scCritStep env 0 (scInit env))) =
          scLoop env 1 2 (scRevStep env 1 (scCritStep env 1
            (scRevStep env 0 (scCritStep env 0 (scInit env))))) :=
        scLoop_fail env 1 1 _ hf1
      have hp2 : critique_passes
          ((env ((scRevStep env 1 (scCritStep env 1
            (scRevStep env 0 (scCritStep env 0 (scInit env))))).calls)).output) = true := by
        simpa [scRevStep, scCritStep, scAdd, scInit] using hpass
      have e3 : scLoop env 1 2 (scRevStep env 1 (scCritStep env 1
            (scRevStep env 0 (scCritStep env 0 (scInit env))))) =
          scCritStep env 2 (scRevStep env 1 (scCritStep env 1
            (scRevStep env 0 (scCritStep env 0 (scInit env))))) :=
        scLoop_pass env 0 2 _ hp2
      constructor <;>
        · simp only [execute_self_correcting]
          rw [e1, e2, e3]
          simp [scCritStep, scRevStep, scAdd, scInit]

/-- Critiques of round one fail, critiques of round two pass. -/
def envSC : Nat → ExecResult := fun i =>
  { output :=
      if i = 1 then "\x7b\"passes_threshold\": false\x7d"
      else if i = 3 then "\x7b\"passes_threshold\": true\x7d"
      else "text",
    tokens_input := 10 + i, tokens_output := i,
    cost_estimate := (i : ℚ), latency_ms := 100 + i, model := "m" }

/-- Witness for C7: a run whose first critique fails and whose second
    critique passes stops after 4 rounds entries and 4 adapter calls. -/
theorem C7_witness :
    (execute_self_correcting envSC 3).rounds.length = 2 + 2 * 1 ∧
    (execute_self_correcting envSC 3).calls = 2 + 2 * 1 := by
  refine (C7_self_correcting_shape envSC).2 1 (by norm_num) ?_ (by decide)
  intro j hj
  interval_cases j
  decide

/-- C10: when the safety-check output does not parse as json after
    sanitization, the JSONDecodeError is swallowed and the check counts as
    passed: the check stage is recorded with status passed, the reviser and
    final-validation stages are recorded as skipped, all_passed is the
    boolean True, and the unrevised generated content is returned as
    final_content after exactly two adapter calls. -/
theorem C10_check_unparseable_passes (env : Nat → ExecResult)
    (h : ∃ e, json_loads (_sanitize_json (env 1).output) = Except.error e) :
    execute_quality_pipeline env =
      Except.ok
        { final_content := (env 0).output,
          stages :=
            [⟨"Generator", "completed", (env 0).output⟩,
             ⟨"Safety & Quality Check", "passed", (env 1).output⟩,
             ⟨"Reviser", "skipped", "Not needed - all checks passed"⟩,
             ⟨"Final Validation", "skipped", "Not needed"⟩],
          all_passed := .bool true,
          tokens_input := (env 0).tokens_input + (env 0).tokens_output +
            ((env 1).tokens_input + (env 1).tokens_output),
          tokens_output := 0,
          cost_estimate := (env 0).cost_estimate + (env 1).cost_estimate,
          latency_ms := (env 0).latency_ms + (env 1).latency_ms,
          calls := 2 } := by
  obtain ⟨e, he⟩ := h
  have hq : qp_passed (env 1).output = .ok (.bool true) := by
    unfold qp_passed
    rw [he]
  simp only [execute_quality_pipeline, hq, pyTruthy, if_true]
  rfl

/-- Safety check output that is not json. -/
def envQP : Nat → ExecResult := fun i =>
  { output := if i = 1 then "looks fine to me" else "draft content",
    tokens_input := 10 + i, tokens_output := i,
    cost_estimate := (i : ℚ), latency_ms := 100 + i, model := "m" }

/-- Witness for C10 at a concrete unparseable safety check. -/
theorem C10_witness :
    execute_quality_pipeline envQP =
      Except.ok
        { final_content := (envQP 0).output,
          stages :=
            [⟨"Generator", "completed", (envQP 0).output⟩,
             ⟨"Safety & Quality Check", "passed", (envQP 1).output⟩,
             ⟨"Reviser", "skipped", "Not needed - all checks passed"⟩,
             ⟨"Final Validation", "skipped", "Not needed"⟩],
          all_passed := .bool true,
          tokens_input := (envQP 0).tokens_input + (envQP 0).tokens_output +
            ((envQP 1).tokens_input + (envQP 1).tokens_output),
          tokens_output := 0,
          cost_estimate := (envQP 0).cost_estimate + (envQP 1).cost_estimate,
          latency_ms := (envQP 0).latency_ms + (envQP 1).latency_ms,
          calls := 2 } :=
  C10_check_unparseable_passes envQP ⟨"Expecting value", by rfl⟩
